import Mathlib

/-!
Verification of the address-selection and machine-identity logic of
`iocore/utils/Machine.cc` (Apache Traffic Server).

The core logic — address classification, per-family best-candidate
selection, the IPv4-preferring default-address policy, and the singleton
lifecycle of the `Machine` object — is embedded shallowly below.
External collaborators (hostname syscalls, interface enumeration,
reverse DNS) are modelled as an environment record; the `ink_inet_*`
address predicates, which live in a header outside this translation
unit, are modelled as attributes of the address value.
-/

namespace TS

/-- Address family of a `sockaddr`: `AF_INET`, `AF_INET6`, or anything
else (including `AF_UNSPEC`, the family of a zeroed `sockaddr`). -/
inductive Family
  | inet
  | inet6
  | other
deriving DecidableEq, Repr

/-- Modelled from the spec: an opaque network address value, tagged with
family; loopback / non-routable / multicast are attributes of the value
(decided in the real code by the `ink_inet_is_*` predicates of
`ink_inet.h`, which is outside this translation unit). `data`
distinguishes distinct addresses of the same class. -/
structure SockAddr where
  family : Family
  loopback : Bool
  nonroutable : Bool
  multicast : Bool
  data : Nat
deriving DecidableEq, Repr

/-- The zeroed `sockaddr` storage produced by `ink_zero`: family
`AF_UNSPEC`, all bytes zero. -/
def SockAddr.zero : SockAddr := SockAddr.mk Family.other false false false 0

/-- Modelled from the spec: `ink_inet_is_ip` — the value is a valid IP
address, i.e. family is `AF_INET` or `AF_INET6`. -/
def ink_inet_is_ip (a : SockAddr) : Bool :=
  a.family == Family.inet || a.family == Family.inet6

/-- Modelled from the spec: `ink_inet_is_ip4` — family is `AF_INET`. -/
def ink_inet_is_ip4 (a : SockAddr) : Bool := a.family == Family.inet

/-- Modelled from the spec: `ink_inet_is_ip6` — family is `AF_INET6`. -/
def ink_inet_is_ip6 (a : SockAddr) : Bool := a.family == Family.inet6

/-- Modelled from the spec: `ink_inet_is_loopback`. -/
def ink_inet_is_loopback (a : SockAddr) : Bool := a.loopback

/-- Modelled from the spec: `ink_inet_is_nonroutable`. -/
def ink_inet_is_nonroutable (a : SockAddr) : Bool := a.nonroutable

/-- Modelled from the spec: `ink_inet_is_multicast`. -/
def ink_inet_is_multicast (a : SockAddr) : Bool := a.multicast

/-- `ink_inet_is_ip` applied through a possibly-NULL `sockaddr const*`
(the real predicate checks the pointer for NULL first). -/
def sockaddrOptIsIp : Option SockAddr → Bool
  | Option.none => false
  | Option.some a => ink_inet_is_ip a

/-- The anonymous enum of `Machine::Machine` (Machine.cc lines 100-106):
Not-an-Address, Loopback, Non-Routable, Multicast, Globally-unique. -/
inductive SpotType
  | NA
  | LO
  | NR
  | MC
  | GA
deriving DecidableEq, Repr

/-- Numeric value of the C enum (declaration order, starting at 0);
the C comparisons `>` and `>=` on the enum are comparisons of these. -/
def SpotType.toNat : SpotType → Nat
  | SpotType.NA => 0
  | SpotType.LO => 1
  | SpotType.NR => 2
  | SpotType.MC => 3
  | SpotType.GA => 4

/-- The classification chain of Machine.cc lines 121-125. -/
def classify (ifip : SockAddr) : SpotType :=
  if !ink_inet_is_ip ifip then SpotType.NA
  else if ink_inet_is_loopback ifip then SpotType.LO
  else if ink_inet_is_nonroutable ifip then SpotType.NR
  else if ink_inet_is_multicast ifip then SpotType.MC
  else SpotType.GA

/-- The selector state of the enumeration loop: best IPv4 and IPv6
candidate seen so far, with their types (`ip4`, `ip4_type`, `ip6`,
`ip6_type` in Machine.cc). -/
structure SelState where
  ip4 : SockAddr
  ip4_type : SpotType
  ip6 : SockAddr
  ip6_type : SpotType
deriving DecidableEq, Repr

/-- Loop-entry state: `ink_zero(ip4)`, `ink_zero(ip6)` (lines 59-60) and
`ip4_type = NA, ip6_type = NA` (line 106). -/
def SelState.initial : SelState :=
  SelState.mk SockAddr.zero SpotType.NA SockAddr.zero SpotType.NA

/-- One iteration of the interface loop body, Machine.cc lines 121-139:
classify, skip `NA`, and replace the per-family best on strictly
greater type. -/
def consider (st : SelState) (ifip : SockAddr) : SelState :=
  if classify ifip = SpotType.NA then st
  else if ink_inet_is_ip4 ifip then
    if st.ip4_type.toNat < (classify ifip).toNat then
      SelState.mk ifip (classify ifip) st.ip6 st.ip6_type
    else st
  else if ink_inet_is_ip6 ifip then
    if st.ip6_type.toNat < (classify ifip).toNat then
      SelState.mk st.ip4 st.ip4_type ifip (classify ifip)
    else st
  else st

/-- The whole enumeration loop over a list of interface addresses. -/
def runSelector (l : List SockAddr) : SelState :=
  List.foldl consider SelState.initial l

/-- The default-address choice of Machine.cc lines 146-150:
`if (ip4_type >= ip6_type) ip = ip4 else ip = ip6`. -/
def chooseDefault (p4 : SockAddr) (t4 : SpotType) (p6 : SockAddr) (t6 : SpotType) : SockAddr :=
  if t6.toNat ≤ t4.toNat then p4 else p6

/-- The fields of the constructed `Machine` object that carry the
identity: resolved hostname (`0` pointer = `Option.none`), the primary
address `ip`, and the per-family addresses `ip4` / `ip6`. -/
structure Machine where
  hostname : Option String
  ip : SockAddr
  ip4 : SockAddr
  ip6 : SockAddr
deriving DecidableEq, Repr

/-- External collaborators of the constructor: `gethostname` (`none` =
syscall failure), `getifaddrs` / `SIOCGIFCONF` (`none` = OS-level
enumeration failure, `some l` = the enumerated addresses), and
`getnameinfo` reverse lookup (`none` = failure). -/
structure Env where
  gethostname : Option String
  interfaces : Option (List SockAddr)
  reverseLookup : SockAddr → Option String

/-- Warning text of Machine.cc line 94 (enumeration failure). -/
def warnIfaddrs : String := "Unable to determine local host address information"

/-- Warning text of Machine.cc line 166 (reverse lookup failure). -/
def warnNameinfo : String := "Failed to find hostname for address"

/-- Hostname resolution on the no-address path (lines 65-69): use the
given name, else `gethostname`; `gethostname` failure is a
`ink_release_assert`, i.e. fatal. -/
def hostnameOrLocal (env : Env) (n : Option String) : Option String :=
  match n with
  | Option.some h => Option.some h
  | Option.none => env.gethostname

/-- The body of `Machine::Machine` (lines 48-179). `Option.none` means
the constructor aborted the process (the `ink_release_assert` on
`gethostname`); `some (m, ws)` is the constructed object together with
the warnings emitted. -/
def machineCtor (env : Env) (the_hostname : Option String) (addr : Option SockAddr) :
    Option (Machine × List String) :=
  if sockaddrOptIsIp addr = false then
    match hostnameOrLocal env the_hostname with
    | Option.none => Option.none
    | Option.some hn =>
      match env.interfaces with
      | Option.none =>
        Option.some (Machine.mk (Option.some hn) SockAddr.zero SockAddr.zero SockAddr.zero,
          [warnIfaddrs])
      | Option.some ifs =>
        let st := List.foldl consider SelState.initial ifs
        Option.some (Machine.mk (Option.some hn)
          (chooseDefault st.ip4 st.ip4_type st.ip6 st.ip6_type) st.ip4 st.ip6, [])
  else
    let a := addr.getD SockAddr.zero
    let h := env.reverseLookup a
    Option.some (Machine.mk h a
      (if ink_inet_is_ip4 a then a else SockAddr.zero)
      (if ink_inet_is_ip6 a then a else SockAddr.zero),
      match h with | Option.none => [warnNameinfo] | Option.some _ => [])

/-- Process-level state of the singleton: `running inst` holds the value
of `Machine::_instance` (NULL = `none`), `crashed` is the aborted
process (a fired assertion). -/
inductive ProcState
  | running (inst : Option Machine)
  | crashed
deriving DecidableEq, Repr

/-- An API call on the singleton. -/
inductive Event
  | initEv (name : Option String) (addr : Option SockAddr)
  | instanceEv
deriving DecidableEq, Repr

/-- Whether an event is an `init` call. -/
def Event.isInitEvt : Event → Bool
  | Event.initEv _ _ => true
  | Event.instanceEv => false

/-- One API call on the process. Modelled from the spec: the
`ink_assert` calls of `Machine::instance` (line 37) and `Machine::init`
(line 43) are fatal assertions, aborting the process. A successful
`init` constructs the instance (possibly itself fatal); the counter
records how many `Machine` constructions completed. -/
def mstepC (env : Env) (p : ProcState × Nat) (e : Event) : ProcState × Nat :=
  match p.1, e with
  | ProcState.crashed, _ => (ProcState.crashed, p.2)
  | ProcState.running (Option.some m), Event.instanceEv => (ProcState.running (Option.some m), p.2)
  | ProcState.running Option.none, Event.instanceEv => (ProcState.crashed, p.2)
  | ProcState.running (Option.some _), Event.initEv _ _ => (ProcState.crashed, p.2)
  | ProcState.running Option.none, Event.initEv name addr =>
    match machineCtor env name addr with
    | Option.none => (ProcState.crashed, p.2)
    | Option.some mw => (ProcState.running (Option.some mw.1), p.2 + 1)

/-- A whole execution: a sequence of API calls from a starting state. -/
def mrun (env : Env) (evs : List Event) (p : ProcState × Nat) : ProcState × Nat :=
  List.foldl (mstepC env) p evs

/-- The initial process state: `Machine::_instance = NULL` (line 33),
no construction yet. -/
def procInit : ProcState × Nat := (ProcState.running Option.none, 0)

/-- A globally-routable IPv4 address (like 8.8.8.8). -/
def ga4 : SockAddr := SockAddr.mk Family.inet false false false 8

/-- A loopback IPv4 address (like 127.0.0.1). -/
def lo4 : SockAddr := SockAddr.mk Family.inet true false false 127

/-- A non-routable IPv4 address (like 10.0.0.5). -/
def nr4 : SockAddr := SockAddr.mk Family.inet false true false 10

/-- A multicast IPv4 address (like 224.0.0.1). -/
def mc4 : SockAddr := SockAddr.mk Family.inet false false true 224

/-- A globally-routable IPv6 address (like 2001:db8::1). -/
def ga6 : SockAddr := SockAddr.mk Family.inet6 false false false 2001

/-- A concrete environment for witnesses: hostname known, empty
interface list, reverse lookup fails. -/
def envW : Env := Env.mk (Option.some "host") (Option.some []) (fun _ => Option.none)

/-- A concrete environment whose interface enumeration fails. -/
def envF : Env := Env.mk (Option.some "host") Option.none (fun _ => Option.none)

/-! Helper lemmas about the predicates and the classifier. -/

/-- An `AF_INET` address is an IP address. -/
theorem is_ip_of_ip4 (a : SockAddr) (h : ink_inet_is_ip4 a = true) :
    ink_inet_is_ip a = true := by
  simp [ink_inet_is_ip4] at h
  simp [ink_inet_is_ip, h]

/-- An `AF_INET6` address is an IP address. -/
theorem is_ip_of_ip6 (a : SockAddr) (h : ink_inet_is_ip6 a = true) :
    ink_inet_is_ip a = true := by
  simp [ink_inet_is_ip6] at h
  simp [ink_inet_is_ip, h]

/-- An `AF_INET` address is not `AF_INET6`. -/
theorem ip4_not_ip6 (a : SockAddr) (h : ink_inet_is_ip4 a = true) :
    ink_inet_is_ip6 a = false := by
  simp [ink_inet_is_ip4] at h
  simp [ink_inet_is_ip6, h]

/-- An `AF_INET6` address is not `AF_INET`. -/
theorem ip6_not_ip4 (a : SockAddr) (h : ink_inet_is_ip6 a = true) :
    ink_inet_is_ip4 a = false := by
  simp [ink_inet_is_ip6] at h
  simp [ink_inet_is_ip4, h]

/-- A valid IP address never classifies as `NA`. -/
theorem classify_ne_na_of_ip (a : SockAddr) (h : ink_inet_is_ip a = true) :
    classify a ≠ SpotType.NA := by
  unfold classify
  rw [h]
  split_ifs <;> simp_all

/-- A valid IP address classifies with positive enum value. -/
theorem classify_pos_of_ip (a : SockAddr) (h : ink_inet_is_ip a = true) :
    0 < (classify a).toNat := by
  have hne := classify_ne_na_of_ip a h
  cases hc : classify a
  · exact absurd hc hne
  all_goals simp [SpotType.toNat]

/-! Helper lemmas about one step of the selector. -/

/-- After one `consider` step the stored IPv4 type is either unchanged or
the type of the candidate just seen. -/
theorem consider_ip4_types (st : SelState) (a : SockAddr) :
    (consider st a).ip4_type = st.ip4_type ∨ (consider st a).ip4_type = classify a := by
  unfold consider
  split_ifs <;> simp

/-- A candidate that is not `AF_INET` leaves the IPv4 side of the state
untouched. -/
theorem consider_not_ip4_keeps (st : SelState) (a : SockAddr)
    (h : ink_inet_is_ip4 a = false) :
    (consider st a).ip4 = st.ip4 ∧ (consider st a).ip4_type = st.ip4_type := by
  unfold consider
  split_ifs <;> simp_all

/-- A candidate whose type does not exceed the stored IPv4 type leaves the
IPv4 side of the state untouched. -/
theorem consider_ip4_no_improve (st : SelState) (a : SockAddr)
    (h : ¬ st.ip4_type.toNat < (classify a).toNat) :
    (consider st a).ip4 = st.ip4 ∧ (consider st a).ip4_type = st.ip4_type := by
  unfold consider
  split_ifs <;> simp_all

/-- Claim C1: the default-address choice of lines 146-150 returns the IPv4
address whenever the IPv4 type is greater than or equal to the IPv6 type
(including when both are `NA`, where the zeroed IPv4 value becomes the
default), returns the IPv6 address otherwise, and always returns one of
the two inputs (pure and total). -/
theorem claim_c1_default_policy (p4 p6 : SockAddr) (t4 t6 : SpotType) :
    (t6.toNat ≤ t4.toNat → chooseDefault p4 t4 p6 t6 = p4)
    ∧ (t4.toNat < t6.toNat → chooseDefault p4 t4 p6 t6 = p6)
    ∧ (chooseDefault p4 t4 p6 t6 = p4 ∨ chooseDefault p4 t4 p6 t6 = p6) := by
  unfold chooseDefault
  refine ⟨fun h => if_pos h, fun h => if_neg (by omega), ?_⟩
  split_ifs <;> simp

/-- Witness for C1: with both sides at `NA` (no usable candidate of either
family) the zeroed IPv4 value is returned as the default. -/
theorem claim_c1_default_policy_witness :
    chooseDefault SockAddr.zero SpotType.NA ga6 SpotType.NA = SockAddr.zero :=
  (claim_c1_default_policy SockAddr.zero ga6 SpotType.NA SpotType.NA).1 (by decide)

/-- Claim C2: one step of the selector loop (lines 127-139). An `NA`
candidate never changes the state; an IPv4/IPv6 candidate of strictly
greater type than the stored best replaces that family's pair; an equal
type keeps the stored pair (first seen wins); a candidate of neither
family changes nothing. -/
theorem claim_c2_consider_step (st : SelState) (a : SockAddr) :
    (classify a = SpotType.NA → consider st a = st)
    ∧ (ink_inet_is_ip4 a = true → st.ip4_type.toNat < (classify a).toNat →
        consider st a = SelState.mk a (classify a) st.ip6 st.ip6_type)
    ∧ (ink_inet_is_ip6 a = true → st.ip6_type.toNat < (classify a).toNat →
        consider st a = SelState.mk st.ip4 st.ip4_type a (classify a))
    ∧ (ink_inet_is_ip4 a = true → classify a = st.ip4_type → consider st a = st)
    ∧ (ink_inet_is_ip6 a = true → classify a = st.ip6_type → consider st a = st)
    ∧ (ink_inet_is_ip4 a = false → ink_inet_is_ip6 a = false → consider st a = st) := by
  refine ⟨?_, ?_, ?_, ?_, ?_, ?_⟩
  · intro hna
    unfold consider
    rw [if_pos hna]
  · intro h4 hlt
    have hne := classify_ne_na_of_ip a (is_ip_of_ip4 a h4)
    unfold consider
    rw [if_neg hne, if_pos h4, if_pos hlt]
  · intro h6 hlt
    have hne := classify_ne_na_of_ip a (is_ip_of_ip6 a h6)
    have h4 := ip6_not_ip4 a h6
    unfold consider
    rw [if_neg hne, if_neg (by simp [h4]), if_pos h6, if_pos hlt]
  · intro h4 heq
    by_cases hna : classify a = SpotType.NA
    · unfold consider
      rw [if_pos hna]
    · unfold consider
      rw [if_neg hna, if_pos h4, if_neg (by rw [heq]; omega)]
  · intro h6 heq
    have h4 := ip6_not_ip4 a h6
    by_cases hna : classify a = SpotType.NA
    · unfold consider
      rw [if_pos hna]
    · unfold consider
      rw [if_neg hna, if_neg (by simp [h4]), if_pos h6, if_neg (by rw [heq]; omega)]
  · intro h4 h6
    by_cases hna : classify a = SpotType.NA
    · unfold consider
      rw [if_pos hna]
    · unfold consider
      rw [if_neg hna, if_neg (by simp [h4]), if_neg (by simp [h6])]

/-- Witness for C2: a globally-routable IPv4 candidate replaces the
initial `NA` placeholder. -/
theorem claim_c2_consider_step_witness :
    consider SelState.initial ga4
      = SelState.mk ga4 (classify ga4) SelState.initial.ip6 SelState.initial.ip6_type :=
  (claim_c2_consider_step SelState.initial ga4).2.1 (by decide) (by decide)

/-- Claim C3: the classification chain of lines 121-125 evaluates the
predicates in precedence order — not an IP gives `NA`, else loopback
gives `LO`, else non-routable gives `NR`, else multicast gives `MC`,
else `GA` — and always yields exactly one of the five ranks. -/
theorem claim_c3_classify_precedence (a : SockAddr) :
    (ink_inet_is_ip a = false → classify a = SpotType.NA)
    ∧ (ink_inet_is_ip a = true → ink_inet_is_loopback a = true → classify a = SpotType.LO)
    ∧ (ink_inet_is_ip a = true → ink_inet_is_loopback a = false →
        ink_inet_is_nonroutable a = true → classify a = SpotType.NR)
    ∧ (ink_inet_is_ip a = true → ink_inet_is_loopback a = false →
        ink_inet_is_nonroutable a = false → ink_inet_is_multicast a = true →
        classify a = SpotType.MC)
    ∧ (ink_inet_is_ip a = true → ink_inet_is_loopback a = false →
        ink_inet_is_nonroutable a = false → ink_inet_is_multicast a = false →
        classify a = SpotType.GA)
    ∧ (classify a = SpotType.NA ∨ classify a = SpotType.LO ∨ classify a = SpotType.NR
        ∨ classify a = SpotType.MC ∨ classify a = SpotType.GA) := by
  refine ⟨?_, ?_, ?_, ?_, ?_, ?_⟩
  · intro h1
    simp [classify, h1]
  · intro h1 h2
    simp [classify, h1, h2]
  · intro h1 h2 h3
    simp [classify, h1, h2, h3]
  · intro h1 h2 h3 h4
    simp [classify, h1, h2, h3, h4]
  · intro h1 h2 h3 h4
    simp [classify, h1, h2, h3, h4]
  · unfold classify
    split_ifs <;> simp

/-- Witness for C3: the loopback IPv4 test address classifies as `LO`. -/
theorem claim_c3_classify_precedence_witness : classify lo4 = SpotType.LO :=
  (claim_c3_classify_precedence lo4).2.1 (by decide) (by decide)

/-- If no IPv4 candidate in the remaining list has a type exceeding the
stored IPv4 type, the fold leaves the IPv4 side of the state unchanged. -/
theorem sel_keep (l : List SockAddr) : ∀ st : SelState,
    (∀ b ∈ l, ink_inet_is_ip4 b = true → ¬ st.ip4_type.toNat < (classify b).toNat) →
    ((List.foldl consider st l).ip4 = st.ip4
      ∧ (List.foldl consider st l).ip4_type = st.ip4_type) := by
  induction l with
  | nil =>
    intro st _
    exact ⟨rfl, rfl⟩
  | cons c rest ih =>
    intro st h
    have hk : (consider st c).ip4 = st.ip4 ∧ (consider st c).ip4_type = st.ip4_type := by
      cases h4c : ink_inet_is_ip4 c with
      | false => exact consider_not_ip4_keeps st c h4c
      | true => exact consider_ip4_no_improve st c (h c (by simp) h4c)
    have hrest := ih (consider st c) (by
      intro b hb h4b
      rw [hk.2]
      exact h b (by simp [hb]) h4b)
    rw [List.foldl_cons]
    exact ⟨hrest.1.trans hk.1, hrest.2.trans hk.2⟩

/-- If `a` is an IPv4 candidate in the list whose type strictly exceeds
that of every other IPv4 candidate and also the incoming stored type,
the fold ends with `a` stored as best IPv4. -/
theorem sel_max (l : List SockAddr) : ∀ (st : SelState) (a : SockAddr),
    a ∈ l → ink_inet_is_ip4 a = true →
    (∀ b ∈ l, ink_inet_is_ip4 b = true → b ≠ a → (classify b).toNat < (classify a).toNat) →
    st.ip4_type.toNat < (classify a).toNat →
    ((List.foldl consider st l).ip4 = a
      ∧ (List.foldl consider st l).ip4_type = classify a) := by
  induction l with
  | nil =>
    intro st a ha
    simp at ha
  | cons c rest ih =>
    intro st a ha h4 hmax hlt
    rw [List.foldl_cons]
    by_cases hca : c = a
    · subst hca
      have hne := classify_ne_na_of_ip c (is_ip_of_ip4 c h4)
      have hst : consider st c = SelState.mk c (classify c) st.ip6 st.ip6_type := by
        unfold consider
        rw [if_neg hne, if_pos h4, if_pos hlt]
      rw [hst]
      have hkeep := sel_keep rest (SelState.mk c (classify c) st.ip6 st.ip6_type) (by
        intro b hb h4b
        by_cases hba : b = c
        · subst hba
          show ¬ (classify b).toNat < (classify b).toNat
          omega
        · have := hmax b (by simp [hb]) h4b hba
          show ¬ (classify c).toNat < (classify b).toNat
          omega)
      exact ⟨hkeep.1, hkeep.2⟩
    · have harest : a ∈ rest := by
        rcases List.mem_cons.mp ha with h | h
        · exact absurd h.symm hca
        · exact h
      have hmaxrest : ∀ b ∈ rest, ink_inet_is_ip4 b = true → b ≠ a →
          (classify b).toNat < (classify a).toNat := by
        intro b hb h4b hba
        exact hmax b (by simp [hb]) h4b hba
      cases h4c : ink_inet_is_ip4 c with
      | false =>
        have hk := consider_not_ip4_keeps st c h4c
        exact ih (consider st c) a harest h4 hmaxrest (by rw [hk.2]; exact hlt)
      | true =>
        have hcb : (classify c).toNat < (classify a).toNat :=
          hmax c (by simp) h4c hca
        rcases consider_ip4_types st c with ht | ht
        · exact ih (consider st c) a harest h4 hmaxrest (by rw [ht]; exact hlt)
        · exact ih (consider st c) a harest h4 hmaxrest (by rw [ht]; exact hcb)

/-- Claim C9: when a list of candidates contains an IPv4 candidate whose
rank strictly exceeds that of every other IPv4 candidate, the selector
yields that candidate as best IPv4 for every permutation of the list
(order-independence of the maximum). -/
theorem claim_c9_order_independence (l lp : List SockAddr) (a : SockAddr)
    (hperm : List.Perm l lp) (ha : a ∈ l) (h4 : ink_inet_is_ip4 a = true)
    (hmax : ∀ b ∈ l, ink_inet_is_ip4 b = true → b ≠ a →
      (classify b).toNat < (classify a).toNat) :
    (runSelector lp).ip4 = a ∧ (runSelector lp).ip4_type = classify a := by
  have hap : a ∈ lp := hperm.mem_iff.mp ha
  have hmaxp : ∀ b ∈ lp, ink_inet_is_ip4 b = true → b ≠ a →
      (classify b).toNat < (classify a).toNat := by
    intro b hb h4b hba
    exact hmax b (hperm.mem_iff.mpr hb) h4b hba
  have h0 : SelState.initial.ip4_type.toNat < (classify a).toNat :=
    classify_pos_of_ip a (is_ip_of_ip4 a h4)
  exact sel_max lp SelState.initial a hap h4 hmaxp h0

/-- Witness for C9: feeding the non-routable, global and loopback IPv4
candidates in a permuted order still selects the global one. -/
theorem claim_c9_order_independence_witness :
    (runSelector [lo4, nr4, ga4]).ip4 = ga4
    ∧ (runSelector [lo4, nr4, ga4]).ip4_type = classify ga4 :=
  claim_c9_order_independence [nr4, ga4, lo4] [lo4, nr4, ga4] ga4
    (by decide) (by decide) (by decide) (by decide)

/-- Claim C4: whenever the constructor completes (explicit address,
successful enumeration, or failed enumeration), the stored primary
address `ip` equals the stored `ip4` value or the stored `ip6` value —
never a synthesized third value. -/
theorem claim_c4_primary_from_family (env : Env) (name : Option String)
    (addr : Option SockAddr) (m : Machine) (ws : List String)
    (h : machineCtor env name addr = Option.some (m, ws)) :
    m.ip = m.ip4 ∨ m.ip = m.ip6 := by
  unfold machineCtor at h
  by_cases hip : sockaddrOptIsIp addr = false
  · rw [if_pos hip] at h
    cases hn : hostnameOrLocal env name <;> rw [hn] at h
    · exact absurd h (by simp)
    · cases hi : env.interfaces <;> rw [hi] at h
      · simp at h
        obtain ⟨hm, _⟩ := h
        left
        rw [← hm]
      · simp at h
        obtain ⟨hm, _⟩ := h
        subst hm
        unfold chooseDefault
        split_ifs
        · left
          rfl
        · right
          rfl
  · rw [if_neg hip] at h
    cases haddr : addr with
    | none =>
      rw [haddr] at hip
      exact absurd rfl hip
    | some a =>
      rw [haddr] at h hip
      have ha : ink_inet_is_ip a = true := by
        simp [sockaddrOptIsIp] at hip
        exact hip
      simp at h
      obtain ⟨hm, _⟩ := h
      subst hm
      by_cases h4 : ink_inet_is_ip4 a = true
      · left
        simp [h4]
      · right
        have h6 : ink_inet_is_ip6 a = true := by
          simp [ink_inet_is_ip, ink_inet_is_ip4, ink_inet_is_ip6] at *
          rcases ha with hf | hf
          · exact absurd hf h4
          · exact hf
        simp [h6]

/-- Witness for C4: the identity built by auto-detection over an empty
interface list has its primary address among its per-family values. -/
theorem claim_c4_primary_from_family_witness :
    (Machine.mk (Option.some "host") SockAddr.zero SockAddr.zero SockAddr.zero).ip
      = (Machine.mk (Option.some "host") SockAddr.zero SockAddr.zero SockAddr.zero).ip4
    ∨ (Machine.mk (Option.some "host") SockAddr.zero SockAddr.zero SockAddr.zero).ip
      = (Machine.mk (Option.some "host") SockAddr.zero SockAddr.zero SockAddr.zero).ip6 :=
  claim_c4_primary_from_family envW Option.none Option.none
    (Machine.mk (Option.some "host") SockAddr.zero SockAddr.zero SockAddr.zero) [] rfl

/-- Claim C7: with an explicit `AF_INET` address the constructor skips
enumeration (its result does not depend on the interface lister) and
stores that address as primary and as `ip4`, leaving `ip6` zeroed; the
hostname is whatever reverse lookup returns. -/
theorem claim_c7_explicit_ip4 (env : Env) (name : Option String) (a : SockAddr)
    (h : ink_inet_is_ip4 a = true) :
    (machineCtor env name (Option.some a)).map Prod.fst
      = Option.some (Machine.mk (env.reverseLookup a) a a SockAddr.zero)
    ∧ ∀ ifs, machineCtor (Env.mk env.gethostname ifs env.reverseLookup) name (Option.some a)
      = machineCtor env name (Option.some a) := by
  have hip : sockaddrOptIsIp (Option.some a) = true := by
    simpa [sockaddrOptIsIp] using is_ip_of_ip4 a h
  have h6 := ip4_not_ip6 a h
  constructor
  · simp [machineCtor, hip, h, h6]
  · intro ifs
    simp [machineCtor, hip]

/-- Witness for C7: an explicit global IPv4 address (with failing reverse
lookup) yields exactly that address as primary and `ip4`, and a zeroed
`ip6`. -/
theorem claim_c7_explicit_ip4_witness :
    (machineCtor envW Option.none (Option.some ga4)).map Prod.fst
      = Option.some (Machine.mk Option.none ga4 ga4 SockAddr.zero) :=
  (claim_c7_explicit_ip4 envW Option.none ga4 (by decide)).1

/-- Claim C8: when interface enumeration fails at the OS level on the
auto-detect path, construction still completes: the enumeration warning
is emitted, all three addresses stay zeroed, and the hostname is set. -/
theorem claim_c8_enum_failure (env : Env) (name : Option String)
    (addr : Option SockAddr) (hn : String)
    (ha : sockaddrOptIsIp addr = false) (hi : env.interfaces = Option.none)
    (hh : hostnameOrLocal env name = Option.some hn) :
    machineCtor env name addr
      = Option.some (Machine.mk (Option.some hn) SockAddr.zero SockAddr.zero SockAddr.zero,
          [warnIfaddrs]) := by
  simp [machineCtor, ha, hh, hi]

/-- Witness for C8: the failing-enumeration environment still produces a
fully formed identity with hostname and the warning. -/
theorem claim_c8_enum_failure_witness :
    machineCtor envF Option.none Option.none
      = Option.some (Machine.mk (Option.some "host") SockAddr.zero SockAddr.zero SockAddr.zero,
          [warnIfaddrs]) :=
  claim_c8_enum_failure envF Option.none Option.none "host" rfl rfl rfl

/-- Claim C10: on the explicit-address path the supplied address is
stored unconditionally as the primary address for every valid IP input —
the classifier is never consulted, so loopback, non-routable and
multicast inputs are stored all the same. -/
theorem claim_c10_no_rank_check (env : Env) (name : Option String) (a : SockAddr)
    (h : ink_inet_is_ip a = true) :
    (machineCtor env name (Option.some a)).map (fun mw => mw.1.ip) = Option.some a := by
  have hip : sockaddrOptIsIp (Option.some a) = true := by
    simpa [sockaddrOptIsIp] using h
  simp [machineCtor, hip]

/-- Witness for C10: a loopback address — which ranks below Global — is
still stored as the primary address. -/
theorem claim_c10_no_rank_check_witness :
    (machineCtor envW Option.none (Option.some lo4)).map (fun mw => mw.1.ip)
      = Option.some lo4 :=
  claim_c10_no_rank_check envW Option.none lo4 (by decide)

/-- A crashed process stays crashed under any further API calls. -/
theorem mrun_crashed (env : Env) (evs : List Event) (n : Nat) :
    mrun env evs (ProcState.crashed, n) = (ProcState.crashed, n) := by
  induction evs with
  | nil => rfl
  | cons e rest ih =>
    have hstep : mstepC env (ProcState.crashed, n) e = (ProcState.crashed, n) := by
      cases e <;> rfl
    show mrun env rest (mstepC env (ProcState.crashed, n) e) = (ProcState.crashed, n)
    rw [hstep]
    exact ih

/-- Running only non-`init` events from the NULL-instance state either
leaves the state unchanged or crashes the process. -/
theorem mrun_no_init (env : Env) (evs : List Event) (n : Nat)
    (h : ∀ e ∈ evs, Event.isInitEvt e = false) :
    mrun env evs (ProcState.running Option.none, n) = (ProcState.running Option.none, n)
    ∨ (mrun env evs (ProcState.running Option.none, n)).1 = ProcState.crashed := by
  induction evs with
  | nil =>
    left
    rfl
  | cons e rest ih =>
    have he : e = Event.instanceEv := by
      cases e with
      | initEv nm ad =>
        exact absurd (h (Event.initEv nm ad) (by simp)) (by simp [Event.isInitEvt])
      | instanceEv => rfl
    subst he
    right
    show (mrun env rest (mstepC env (ProcState.running Option.none, n) Event.instanceEv)).1
      = ProcState.crashed
    have hstep : mstepC env (ProcState.running Option.none, n) Event.instanceEv
        = (ProcState.crashed, n) := rfl
    rw [hstep, mrun_crashed]

/-- Claim C5: in every execution whose prior events contain no `init`
call, a subsequent `instance()` call crashes the process (the
`ink_assert` of line 37 fires), rather than returning a default. -/
theorem claim_c5_instance_before_init (env : Env) (evs : List Event)
    (h : ∀ e ∈ evs, Event.isInitEvt e = false) :
    (mrun env (evs ++ [Event.instanceEv]) procInit).1 = ProcState.crashed := by
  have hsplit : mrun env (evs ++ [Event.instanceEv]) procInit
      = mstepC env (mrun env evs procInit) Event.instanceEv := by
    simp [mrun, List.foldl_append]
  rw [hsplit]
  rcases mrun_no_init env evs 0 h with hc | hc
  · show (mstepC env (mrun env evs (ProcState.running Option.none, 0)) Event.instanceEv).1
      = ProcState.crashed
    rw [hc]
    rfl
  · rcases hm : mrun env evs procInit with ⟨s, k⟩
    have hs : s = ProcState.crashed := by
      have : (mrun env evs (ProcState.running Option.none, 0)).1 = ProcState.crashed := hc
      rw [show mrun env evs (ProcState.running Option.none, 0) = (s, k) from hm] at this
      exact this
    subst hs
    rfl

/-- Witness for C5: calling `instance()` as the very first API call
crashes the process. -/
theorem claim_c5_instance_before_init_witness :
    (mrun envW ([] ++ [Event.instanceEv]) procInit).1 = ProcState.crashed :=
  claim_c5_instance_before_init envW [] (by simp)

/-- One API step preserves the singleton invariant: at most one completed
construction, and none while the instance pointer is still NULL. -/
theorem mstepC_inv (env : Env) (p : ProcState × Nat) (e : Event)
    (h1 : p.2 ≤ 1) (h2 : p.1 = ProcState.running Option.none → p.2 = 0) :
    (mstepC env p e).2 ≤ 1
    ∧ ((mstepC env p e).1 = ProcState.running Option.none → (mstepC env p e).2 = 0) := by
  rcases p with ⟨s, n⟩
  cases s with
  | crashed =>
    cases e <;> exact ⟨h1, by intro hh; exact absurd hh (by simp [mstepC])⟩
  | running inst =>
    cases inst with
    | some m =>
      cases e with
      | instanceEv => exact ⟨h1, fun _ => h2 (by simp_all [mstepC])⟩
      | initEv nm ad => exact ⟨h1, by intro hh; exact absurd hh (by simp [mstepC])⟩
    | none =>
      have hn0 : n = 0 := h2 rfl
      subst hn0
      cases e with
      | instanceEv => exact ⟨by simp [mstepC], by intro hh; exact absurd hh (by simp [mstepC])⟩
      | initEv nm ad =>
        cases hm : machineCtor env nm ad with
        | none =>
          refine ⟨?_, ?_⟩
          · show (mstepC env (ProcState.running Option.none, 0) (Event.initEv nm ad)).2 ≤ 1
            simp [mstepC, hm]
          · intro hh
            exact absurd hh (by simp [mstepC, hm])
        | some mw =>
          refine ⟨?_, ?_⟩
          · show (mstepC env (ProcState.running Option.none, 0) (Event.initEv nm ad)).2 ≤ 1
            simp [mstepC, hm]
          · intro hh
            exact absurd hh (by simp [mstepC, hm])

/-- The singleton invariant holds along any whole execution. -/
theorem mrun_inv (env : Env) (evs : List Event) : ∀ p : ProcState × Nat,
    p.2 ≤ 1 → (p.1 = ProcState.running Option.none → p.2 = 0) →
    (mrun env evs p).2 ≤ 1 := by
  induction evs with
  | nil =>
    intro p h1 _
    exact h1
  | cons e rest ih =>
    intro p h1 h2
    have hs := mstepC_inv env p e h1 h2
    exact ih (mstepC env p e) hs.1 hs.2

/-- Claim C6: a second `init()` on an already-initialized process crashes
it without constructing another instance (the construction count is
unchanged), and along every execution from process start at most one
`Machine` construction ever completes. -/
theorem claim_c6_single_instance (env : Env) (evs : List Event) :
    (mrun env evs procInit).2 ≤ 1
    ∧ ∀ (m : Machine) (n : Nat) (name : Option String) (addr : Option SockAddr),
        mstepC env (ProcState.running (Option.some m), n) (Event.initEv name addr)
          = (ProcState.crashed, n) := by
  constructor
  · exact mrun_inv env evs procInit (by simp [procInit]) (fun _ => rfl)
  · intro m n name addr
    rfl

end TS
